import Mathlib

/-
Shallow embedding of `src/app/advanced-map/advanced-map.component.ts`
(AdvancedMapComponent, Angular + mapbox-gl + RxJS).

Modelling conventions:
* Coordinates are rationals (`Rat`); the source uses JS float64, but no
  claim depends on float rounding, only on which values flow where.
* `Number.parseFloat` is modelled by `parseFloat` below, a decimal
  parser faithful on the well-formed decimal literals the component
  feeds it (geocoder `lat`/`lon` strings).
* HTTP requests are modelled as pending-request records tagged with a
  fresh issue index (`nextReqId`); the index is bookkeeping for traces
  only — the source attaches no tag to a request, and a completion
  handler (`geocodeComplete` / `poiComplete`, the bodies of the
  `subscribe` callbacks composed with their `catchError`) applies its
  response unconditionally.
* The mapbox map handle is modelled by `mapPresent` plus the last
  centre commanded via `flyTo` (`mapCenterLon`/`mapCenterLat`/`mapZoom`).
  A `moveend` event carries the widget's new centre as event data, as
  the source reads it from `map.getCenter()`; the handler writes no
  component state of its own.
* The RxJS `timer(30000, 30000)` subscription created by
  `setupAutoRefresh` is a `RefreshTimer` record carrying a fresh id and
  the instant it was armed; `activeTimers` is the set of live timer
  subscriptions and `refreshSub` the component's `refreshSubscription`
  field. `unsubscribe()` erases the timer from `activeTimers`.
-/

set_option autoImplicit false

namespace AdvancedMap

/-- Geocoder row / component `Location` interface: `display_name`, `lat`,
`lon` are strings, exactly as in the source interface. -/
structure Location where
  display_name : String
  lat : String
  lon : String
deriving DecidableEq, Repr

/-- `tags` object of a `Restaurant`: optional `name`, required `amenity`. -/
structure Tags where
  name : Option String
  amenity : String
deriving DecidableEq, Repr

/-- `Restaurant` interface: numeric id and coordinates plus `tags`. -/
structure Restaurant where
  id : Int
  lat : Rat
  lon : Rat
  tags : Tags
deriving DecidableEq, Repr

/-- A marker is either the red centre marker or a blue restaurant marker. -/
inductive MarkerKind where
  | center
  | restaurant
deriving DecidableEq, Repr

/-- One mapbox marker as created by `updateMapMarkers`: kind, position
and popup HTML. -/
structure Marker where
  kind : MarkerKind
  lon : Rat
  lat : Rat
  popup : String
deriving DecidableEq, Repr

/-- A GeoJSON feature of the clustering source built in `setupClustering`. -/
structure Feature where
  id : Int
  lon : Rat
  lat : Rat
  name : String
deriving DecidableEq, Repr

/-- One live `timer(30000, 30000)` subscription: a fresh subscription id
and the instant (ms) `setupAutoRefresh` armed it. -/
structure RefreshTimer where
  tid : Nat
  armedAt : Nat
deriving DecidableEq, Repr

/-- An in-flight HTTP request: a nominatim geocode for a query string, or
an overpass POI fetch around a coordinate. The `Nat` is the issue index. -/
inductive PendingReq where
  | geocode (id : Nat) (query : String)
  | poi (id : Nat) (lat : Rat) (lon : Rat)
deriving DecidableEq, Repr

/-- Issue index of a pending request. -/
def PendingReq.reqId : PendingReq → Nat
  | PendingReq.geocode id _ => id
  | PendingReq.poi id _ _ => id

/-- Response of the nominatim geocode request, after HTTP: either a JSON
array of rows or a transport error (which `catchError` intercepts). -/
inductive GeocodeResp where
  | ok (rows : List Location)
  | transportError
deriving DecidableEq, Repr

/-- Response of the overpass POI request: either an `elements` array or a
transport error (which `catchError` intercepts). -/
inductive PoiResp where
  | ok (elements : List Restaurant)
  | transportError
deriving DecidableEq, Repr

/-- Component state of `AdvancedMapComponent`: the fields of the class
plus the observable environment (pending requests, live timers). -/
structure ComponentState where
  mapPresent : Bool
  mapCenterLon : Rat
  mapCenterLat : Rat
  mapZoom : Nat
  markers : List Marker
  clusterSource : Option (List Feature)
  activeTimers : List RefreshTimer
  refreshSub : Option RefreshTimer
  nextTimerId : Nat
  destroyed : Bool
  searchQuery : String
  location : Option Location
  restaurants : List Restaurant
  loading : Bool
  error : Option String
  isOffline : Bool
  pending : List PendingReq
  nextReqId : Nat
deriving DecidableEq, Repr

/-- Error string set by `searchLocation`'s `catchError`. -/
def geocodeFailedMsg : String := "Failed to fetch location. Please try again."

/-- Error string set by the empty-result branch of `searchLocation`'s
subscriber. -/
def noResultsMsg : String := "No results found for this location"

/-- Error string set by `fetchRestaurantsForCoordinates`'s `catchError`. -/
def poiFetchFailedMsg : String := "Failed to fetch restaurants. Please try again."

/-- Clustering constant `clusterMaxZoom` of the `restaurants` source. -/
def clusterMaxZoom : Nat := 14

/-- Clustering constant `clusterRadius` of the `restaurants` source. -/
def clusterRadius : Nat := 50

/-- Period (ms) of `timer(30000, 30000)` in `setupAutoRefresh`. -/
def refreshIntervalMs : Nat := 30000

/-- Instant of the first tick of an armed refresh timer. -/
def RefreshTimer.firstDueAt (t : RefreshTimer) : Nat := t.armedAt + refreshIntervalMs

/-- Digits of a decimal string as a natural number. -/
def digitsToNat (l : List Char) : Nat :=
  l.foldl (fun acc c => 10 * acc + (c.toNat - 48)) 0

/-- Unsigned part of `parseFloat`: integer digits, then an optional
fractional part after the decimal point. -/
def parseFloatAux (l : List Char) : Rat :=
  let ip := l.takeWhile (fun c => c != '.')
  match l.dropWhile (fun c => c != '.') with
  | [] => (digitsToNat ip : Rat)
  | _ :: fp =>
      (digitsToNat ip : Rat) + (digitsToNat fp : Rat) / (((10 : Nat) ^ fp.length : Nat) : Rat)

/-- Models JS `Number.parseFloat` on the well-formed decimal literals
(optional sign, digits, optional fraction) the component feeds it. -/
def parseFloat (s : String) : Rat :=
  match s.toList with
  | '-' :: rest => -(parseFloatAux rest)
  | l => parseFloatAux l

/-- Popup name of a restaurant: `tags.name || "Unnamed Restaurant"`. -/
def restaurantName (r : Restaurant) : String :=
  r.tags.name.getD "Unnamed Restaurant"

/-- The markers `updateMapMarkers` creates from a location and the
restaurant list: the red centre marker with the display-name popup, then
one blue marker per restaurant in list order. -/
def renderMarkers (loc : Location) (rs : List Restaurant) : List Marker :=
  { kind := MarkerKind.center, lon := parseFloat loc.lon, lat := parseFloat loc.lat,
    popup := "<h3>" ++ loc.display_name ++ "</h3>" } ::
  rs.map (fun r =>
    { kind := MarkerKind.restaurant, lon := r.lon, lat := r.lat,
      popup := "<h3>" ++ restaurantName r ++ "</h3>" })

/-- GeoJSON feature built for one restaurant in `setupClustering`. -/
def restaurantFeature (r : Restaurant) : Feature :=
  { id := r.id, lon := r.lon, lat := r.lat, name := restaurantName r }

/-- `searchLocation(query)`: no-op when the trimmed query is empty or the
component is offline; otherwise sets `loading`, clears `error` and issues
the nominatim geocode request. -/
def searchLocation (s : ComponentState) (query : String) : ComponentState :=
  if query.trim = "" ∨ s.isOffline = true then s
  else
    { s with loading := true, error := none,
             pending := s.pending ++ [PendingReq.geocode s.nextReqId query],
             nextReqId := s.nextReqId + 1 }

/-- `fetchRestaurantsForCoordinates(lat, lon)`: no-op when offline;
otherwise sets `loading` and issues the overpass POI request. -/
def fetchRestaurantsForCoordinates (s : ComponentState) (lat lon : Rat) : ComponentState :=
  if s.isOffline = true then s
  else
    { s with loading := true,
             pending := s.pending ++ [PendingReq.poi s.nextReqId lat lon],
             nextReqId := s.nextReqId + 1 }

/-- `updateMapCenter(lon, lat)`: `flyTo` the given centre at zoom 13 when
the map exists. -/
def updateMapCenter (s : ComponentState) (lon lat : Rat) : ComponentState :=
  if s.mapPresent = true then
    { s with mapCenterLon := lon, mapCenterLat := lat, mapZoom := 13 }
  else s

/-- `setupClustering()`: when the map exists, install or refresh the
`restaurants` GeoJSON source from the current restaurant list (both the
`setData` and the `addSource` branch set the same feature collection;
the model assumes the map `load` event delivers the handler). -/
def setupClustering (s : ComponentState) : ComponentState :=
  if s.mapPresent = true then
    { s with clusterSource := some (s.restaurants.map restaurantFeature) }
  else s

/-- `updateMapMarkers()`: no-op without a map or a location; otherwise
remove every previous marker, render the centre marker and one marker per
restaurant, and additionally call `setupClustering` when more than 20
restaurants are present. -/
def updateMapMarkers (s : ComponentState) : ComponentState :=
  if s.mapPresent = true then
    match s.location with
    | none => s
    | some loc =>
        let s1 := { s with markers := renderMarkers loc s.restaurants }
        if 20 < s1.restaurants.length then setupClustering s1 else s1
  else s

/-- `setupAutoRefresh()`: unsubscribe the previous `refreshSubscription`
if any, then subscribe a fresh `timer(30000, 30000)` armed at `now`. -/
def setupAutoRefresh (now : Nat) (s : ComponentState) : ComponentState :=
  let cleared :=
    match s.refreshSub with
    | some t => { s with activeTimers := s.activeTimers.erase t }
    | none => s
  let t : RefreshTimer := { tid := cleared.nextTimerId, armedAt := now }
  { cleared with activeTimers := cleared.activeTimers ++ [t],
                 refreshSub := some t,
                 nextTimerId := cleared.nextTimerId + 1 }

/-- Completion of a geocode request: `catchError` turns a transport error
into the geocode-failure message plus an empty array, then the subscriber
runs — empty array: no-results message, `location := null`; otherwise:
store the first row as `location`, `flyTo` it, issue the POI fetch, and
finally clear `loading`. -/
def geocodeComplete (s : ComponentState) (id : Nat) (resp : GeocodeResp) : ComponentState :=
  let s0 := { s with pending := s.pending.filter (fun r => r.reqId ≠ id) }
  let caught : Option String × List Location :=
    match resp with
    | GeocodeResp.ok rows => (s0.error, rows)
    | GeocodeResp.transportError => (some geocodeFailedMsg, [])
  let s1 := { s0 with error := caught.1 }
  match caught.2 with
  | [] =>
      { s1 with error := some noResultsMsg, location := none, loading := false }
  | row :: _ =>
      let loc : Location :=
        { display_name := row.display_name, lat := row.lat, lon := row.lon }
      let s2 := { s1 with location := some loc }
      let s3 := updateMapCenter s2 (parseFloat loc.lon) (parseFloat loc.lat)
      let s4 := fetchRestaurantsForCoordinates s3 (parseFloat loc.lat) (parseFloat loc.lon)
      { s4 with loading := false }

/-- Completion of a POI request at instant `now`: `catchError` turns a
transport error into the POI-failure message plus `elements: []`, then
the subscriber stores `data.elements || []` as `restaurants`, re-renders
markers, clears `loading`, and re-arms the refresh timer. -/
def poiComplete (now : Nat) (s : ComponentState) (id : Nat) (resp : PoiResp) : ComponentState :=
  let s0 := { s with pending := s.pending.filter (fun r => r.reqId ≠ id) }
  let caught : Option String × List Restaurant :=
    match resp with
    | PoiResp.ok elements => (s0.error, elements)
    | PoiResp.transportError => (some poiFetchFailedMsg, [])
  let s1 := { s0 with error := caught.1, restaurants := caught.2 }
  let s2 := updateMapMarkers s1
  let s3 := { s2 with loading := false }
  setupAutoRefresh now s3

/-- The `moveend` handler: when the map exists, read its centre (carried
here as event data) and fetch restaurants for it. -/
def onMoveend (s : ComponentState) (lat lon : Rat) : ComponentState :=
  if s.mapPresent = true then fetchRestaurantsForCoordinates s lat lon else s

/-- Body of the refresh-timer subscriber: fetch restaurants for the
current location when one exists and the component is online. -/
def refreshTick (s : ComponentState) : ComponentState :=
  match s.location with
  | some loc =>
      if s.isOffline = true then s
      else fetchRestaurantsForCoordinates s (parseFloat loc.lat) (parseFloat loc.lon)
  | none => s

/-- `ngOnDestroy()`: `destroy$` fires (ending every `takeUntil`-guarded
subscription, the live refresh timer included), `refreshSubscription` is
unsubscribed, and the map is removed. -/
def ngOnDestroy (s : ComponentState) : ComponentState :=
  { s with destroyed := true, activeTimers := [], refreshSub := none,
           mapPresent := false }

/-- External and internal events the component reacts to. `submit` is the
form submission, `debouncedInput` the debounced-search subscriber firing;
both call `searchLocation(this.searchQuery)`. -/
inductive Event where
  | submit
  | debouncedInput
  | moveend (lat lon : Rat)
  | tick
  | geocodeDone (id : Nat) (resp : GeocodeResp)
  | poiDone (id : Nat) (resp : PoiResp)
  | goOnline
  | goOffline
  | destroy
deriving DecidableEq, Repr

/-- One step of the component: dispatch an event at instant `now`. -/
def step (now : Nat) (s : ComponentState) : Event → ComponentState
  | Event.submit => searchLocation s s.searchQuery
  | Event.debouncedInput => searchLocation s s.searchQuery
  | Event.moveend lat lon => onMoveend s lat lon
  | Event.tick => refreshTick s
  | Event.geocodeDone id resp => geocodeComplete s id resp
  | Event.poiDone id resp => poiComplete now s id resp
  | Event.goOnline => if s.destroyed = true then s else { s with isOffline := false }
  | Event.goOffline => if s.destroyed = true then s else { s with isOffline := true }
  | Event.destroy => ngOnDestroy s

/-
The search pipeline of `setupSearch`:
`fromEvent(input, "input").pipe(debounceTime(300), distinctUntilChanged(), takeUntil(...))`,
subscriber: `searchLocation(this.searchQuery)`.

Modelling: a raw DOM `input` event is a fresh object; object identity is
modelled by a unique `eventId`. `value` is the input's content at the
event, which the `[(ngModel)]` binding mirrors into `searchQuery`; at the
instant a debounced emission fires (300 ms after its event, before any
later event), `searchQuery` equals the emitted event's `value`, so the
committed query is that `value`.
-/

/-- A raw `input` DOM event: object identity (`eventId`), timestamp in
ms, and the input's content at that moment. -/
structure InputEvent where
  eventId : Nat
  time : Nat
  value : String
deriving DecidableEq, Repr

/-- `debounceTime(300)` on a time-ordered event list: an event is emitted
iff at least 300 ms pass before the next event (the final event is
emitted once 300 ms of silence elapse). -/
def debounceTime300 : List InputEvent → List InputEvent
  | [] => []
  | [e] => [e]
  | e :: e2 :: rest =>
      if 300 ≤ e2.time - e.time then e :: debounceTime300 (e2 :: rest)
      else debounceTime300 (e2 :: rest)

/-- Helper for `distinctUntilChanged`: drop elements equal to the
previous emission. -/
def distinctAux {α : Type} [DecidableEq α] (prev : α) : List α → List α
  | [] => []
  | x :: rest => if x = prev then distinctAux prev rest else x :: distinctAux x rest

/-- RxJS `distinctUntilChanged()`: suppress consecutive duplicates of the
stream's elements (by the equality of the element type). -/
def distinctUntilChanged {α : Type} [DecidableEq α] : List α → List α
  | [] => []
  | x :: rest => x :: distinctAux x rest

/-- The queries the source pipeline commits: `distinctUntilChanged`
compares the raw `InputEvent` objects (as the source pipeline receives
`Event` objects, not strings), then the subscriber reads `searchQuery`. -/
def committedQueries (evs : List InputEvent) : List String :=
  (distinctUntilChanged (debounceTime300 evs)).map InputEvent.value

/-- The committed queries as the spec words them ("suppress consecutive
duplicate emissions (same string as previous emission is dropped)"):
deduplication applied to the emitted strings. Stated for comparison with
`committedQueries`. -/
def specDebounceCommits (evs : List InputEvent) : List String :=
  distinctUntilChanged ((debounceTime300 evs).map InputEvent.value)

/-- A base online state with a live map, used by the concrete traces:
map at the initial centre, no markers, no timers, no pending requests. -/
def baseState : ComponentState :=
  { mapPresent := true, mapCenterLon := 2.3522, mapCenterLat := 48.8566,
    mapZoom := 13, markers := [], clusterSource := none, activeTimers := [],
    refreshSub := none, nextTimerId := 0, destroyed := false,
    searchQuery := "Paris", location := none, restaurants := [],
    loading := false, error := none, isOffline := false, pending := [],
    nextReqId := 0 }

/-- The location the concrete traces use (integral coordinate strings
keep kernel evaluation cheap; nothing depends on the values). -/
def parisLoc : Location := { display_name := "Paris, France", lat := "48", lon := "2" }

/-- A restaurant used as the payload of the stale response in traces. -/
def rA : Restaurant :=
  { id := 1, lat := 1, lon := 1, tags := { name := some "Alpha", amenity := "restaurant" } }

/-- A restaurant used as the payload of the newest response in traces. -/
def rB : Restaurant :=
  { id := 2, lat := 2, lon := 2, tags := { name := some "Beta", amenity := "restaurant" } }

/-
Projection lemmas: which state fields each operation leaves untouched.
These let the completion handlers, which compose several operations, be
reasoned about field by field.
-/

theorem updateMapMarkers_restaurants (s : ComponentState) :
    (updateMapMarkers s).restaurants = s.restaurants := by
  simp only [updateMapMarkers, setupClustering]
  repeat' split
  all_goals rfl

theorem updateMapMarkers_location (s : ComponentState) :
    (updateMapMarkers s).location = s.location := by
  simp only [updateMapMarkers, setupClustering]
  repeat' split
  all_goals rfl

theorem updateMapMarkers_error (s : ComponentState) :
    (updateMapMarkers s).error = s.error := by
  simp only [updateMapMarkers, setupClustering]
  repeat' split
  all_goals rfl

theorem updateMapMarkers_nextTimerId (s : ComponentState) :
    (updateMapMarkers s).nextTimerId = s.nextTimerId := by
  simp only [updateMapMarkers, setupClustering]
  repeat' split
  all_goals rfl

theorem updateMapMarkers_activeTimers (s : ComponentState) :
    (updateMapMarkers s).activeTimers = s.activeTimers := by
  simp only [updateMapMarkers, setupClustering]
  repeat' split
  all_goals rfl

theorem updateMapMarkers_refreshSub (s : ComponentState) :
    (updateMapMarkers s).refreshSub = s.refreshSub := by
  simp only [updateMapMarkers, setupClustering]
  repeat' split
  all_goals rfl

theorem setupAutoRefresh_restaurants (now : Nat) (s : ComponentState) :
    (setupAutoRefresh now s).restaurants = s.restaurants := by
  unfold setupAutoRefresh
  cases s.refreshSub <;> rfl

theorem setupAutoRefresh_markers (now : Nat) (s : ComponentState) :
    (setupAutoRefresh now s).markers = s.markers := by
  unfold setupAutoRefresh
  cases s.refreshSub <;> rfl

theorem setupAutoRefresh_error (now : Nat) (s : ComponentState) :
    (setupAutoRefresh now s).error = s.error := by
  unfold setupAutoRefresh
  cases s.refreshSub <;> rfl

theorem setupAutoRefresh_loading (now : Nat) (s : ComponentState) :
    (setupAutoRefresh now s).loading = s.loading := by
  unfold setupAutoRefresh
  cases s.refreshSub <;> rfl

theorem setupAutoRefresh_location (now : Nat) (s : ComponentState) :
    (setupAutoRefresh now s).location = s.location := by
  unfold setupAutoRefresh
  cases s.refreshSub <;> rfl

theorem setupAutoRefresh_refreshSub (now : Nat) (s : ComponentState) :
    (setupAutoRefresh now s).refreshSub =
      some { tid := s.nextTimerId, armedAt := now } := by
  unfold setupAutoRefresh
  cases s.refreshSub <;> rfl

theorem fetchRestaurants_location (s : ComponentState) (lat lon : Rat) :
    (fetchRestaurantsForCoordinates s lat lon).location = s.location := by
  unfold fetchRestaurantsForCoordinates
  split <;> rfl

theorem fetchRestaurants_activeTimers (s : ComponentState) (lat lon : Rat) :
    (fetchRestaurantsForCoordinates s lat lon).activeTimers = s.activeTimers := by
  unfold fetchRestaurantsForCoordinates
  split <;> rfl

theorem fetchRestaurants_refreshSub (s : ComponentState) (lat lon : Rat) :
    (fetchRestaurantsForCoordinates s lat lon).refreshSub = s.refreshSub := by
  unfold fetchRestaurantsForCoordinates
  split <;> rfl

theorem updateMapCenter_location (s : ComponentState) (lon lat : Rat) :
    (updateMapCenter s lon lat).location = s.location := by
  unfold updateMapCenter
  split <;> rfl

theorem updateMapCenter_activeTimers (s : ComponentState) (lon lat : Rat) :
    (updateMapCenter s lon lat).activeTimers = s.activeTimers := by
  unfold updateMapCenter
  split <;> rfl

theorem updateMapCenter_refreshSub (s : ComponentState) (lon lat : Rat) :
    (updateMapCenter s lon lat).refreshSub = s.refreshSub := by
  unfold updateMapCenter
  split <;> rfl

theorem searchLocation_activeTimers (s : ComponentState) (q : String) :
    (searchLocation s q).activeTimers = s.activeTimers := by
  unfold searchLocation
  split <;> rfl

theorem searchLocation_refreshSub (s : ComponentState) (q : String) :
    (searchLocation s q).refreshSub = s.refreshSub := by
  unfold searchLocation
  split <;> rfl

theorem poiComplete_restaurants_ok (now : Nat) (s : ComponentState) (id : Nat)
    (elements : List Restaurant) :
    (poiComplete now s id (PoiResp.ok elements)).restaurants = elements := by
  simp only [poiComplete, setupAutoRefresh_restaurants, updateMapMarkers_restaurants]

theorem poiComplete_restaurants_err (now : Nat) (s : ComponentState) (id : Nat) :
    (poiComplete now s id PoiResp.transportError).restaurants = [] := by
  simp only [poiComplete, setupAutoRefresh_restaurants, updateMapMarkers_restaurants]

theorem geocodeComplete_location_row (s : ComponentState) (id : Nat) (row : Location)
    (rest : List Location) :
    (geocodeComplete s id (GeocodeResp.ok (row :: rest))).location =
      some { display_name := row.display_name, lat := row.lat, lon := row.lon } := by
  simp only [geocodeComplete, fetchRestaurants_location, updateMapCenter_location]

/-- State of the C1 trace before any fetch: online, map present, a
current location. -/
def c1Start : ComponentState := { baseState with location := some parisLoc }

/-- Two pans issue two POI fetches; the request issued first (index 0,
the stale one) and the request issued second (index 1, the newest). -/
def c1Issued : ComponentState := onMoveend (onMoveend c1Start 1 1) 2 2

/-- The newest request's response (payload `[rB]`) completes first. -/
def c1AfterNew : ComponentState := step 1 c1Issued (Event.poiDone 1 (PoiResp.ok [rB]))

/-- Then the stale request's response (payload `[rA]`) completes. -/
def c1AfterStale : ComponentState := step 2 c1AfterNew (Event.poiDone 0 (PoiResp.ok [rA]))

/-- C1 counterexample: the component has no generation guard — after the
newest fetch (issue index 1) has been applied, the stale fetch (issue
index 0) still overwrites the state: `restaurants` ends as the stale
payload `[rA]`, not the newest `[rB]`, so a stale response is applied
rather than discarded. -/
theorem C1_counterexample :
    c1Issued.pending = [PendingReq.poi 0 1 1, PendingReq.poi 1 2 2] ∧
    c1AfterNew.restaurants = [rB] ∧
    c1AfterStale.restaurants = [rA] ∧
    rA ≠ rB := by decide

/-- C1 (amended): responses are applied unconditionally in arrival
order — every completed POI response replaces `restaurants` with its
payload (`[]` for a caught transport error) and every completed
non-empty geocode response replaces `location` with its first row,
regardless of when the request was issued; the last response to arrive
determines the state, with no generation-based discarding. -/
theorem C1_amended_last_arrival_wins (now : Nat) (s : ComponentState) (id : Nat)
    (elements : List Restaurant) (row : Location) (rest : List Location) :
    (step now s (Event.poiDone id (PoiResp.ok elements))).restaurants = elements ∧
    (step now s (Event.poiDone id PoiResp.transportError)).restaurants = [] ∧
    (step now s (Event.geocodeDone id (GeocodeResp.ok (row :: rest)))).location =
      some { display_name := row.display_name, lat := row.lat, lon := row.lon } := by
  refine ⟨?_, ?_, ?_⟩
  · exact poiComplete_restaurants_ok now s id elements
  · exact poiComplete_restaurants_err now s id
  · exact geocodeComplete_location_row s id row rest

/-- State of the C3 trace: a previous location is held and one geocode
request (issue index 0) is in flight. -/
def c3Before : ComponentState :=
  { baseState with location := some parisLoc,
                   pending := [PendingReq.geocode 0 "Atlantis"], nextReqId := 1 }

/-- The in-flight geocode fails with a transport error. -/
def c3After : ComponentState := step 0 c3Before (Event.geocodeDone 0 GeocodeResp.transportError)

/-- C3: `catchError` does set the geocode-failure message, but it
recovers with `of([])`, so the subscriber's empty-result branch then
overwrites `error` with the no-results message and clears `location` —
the final state carries `NoResults`, not `GeocodeFailed`, and the
previous `currentLocation` is discarded. The cycle does stop: no POI
fetch is issued (no new pending request, issue counter unchanged). -/
theorem C3_transport_error_masked :
    c3After.error = some noResultsMsg ∧
    noResultsMsg ≠ geocodeFailedMsg ∧
    c3Before.location = some parisLoc ∧
    c3After.location = none ∧
    c3After.pending = [] ∧
    c3After.nextReqId = c3Before.nextReqId := by decide

/-- C2: while `isOffline` is true, every trigger — submitted search,
debounced input, map pan (`moveend`), refresh-timer tick — is a complete
no-op: the state is unchanged, so in particular no geocode and no POI
request is issued. -/
theorem C2_offline_no_requests (now : Nat) (s : ComponentState) (lat lon : Rat)
    (h : s.isOffline = true) :
    step now s Event.submit = s ∧
    step now s Event.debouncedInput = s ∧
    step now s (Event.moveend lat lon) = s ∧
    step now s Event.tick = s := by
  have hs : searchLocation s s.searchQuery = s := by
    unfold searchLocation
    rw [if_pos (Or.inr h)]
  have hf : ∀ la lo : Rat, fetchRestaurantsForCoordinates s la lo = s := by
    intro la lo
    unfold fetchRestaurantsForCoordinates
    rw [if_pos h]
  refine ⟨hs, hs, ?_, ?_⟩
  · show onMoveend s lat lon = s
    unfold onMoveend
    split
    · exact hf lat lon
    · rfl
  · show refreshTick s = s
    rcases hl : s.location with _ | loc <;> simp [refreshTick, hl, h]

/-- An offline state used to witness the offline guarantee. -/
def offState : ComponentState := { baseState with isOffline := true }

/-- C2 witness: the offline guarantee at a concrete offline state. -/
theorem C2_offline_witness :
    offState.isOffline = true ∧
    (step 0 offState Event.submit = offState ∧
     step 0 offState Event.debouncedInput = offState ∧
     step 0 offState (Event.moveend 3 4) = offState ∧
     step 0 offState Event.tick = offState) :=
  ⟨rfl, C2_offline_no_requests 0 offState 3 4 rfl⟩

theorem updateMapMarkers_markers_some (s : ComponentState) (loc : Location)
    (hm : s.mapPresent = true) (hl : s.location = some loc) :
    (updateMapMarkers s).markers = renderMarkers loc s.restaurants := by
  simp only [updateMapMarkers, setupClustering, hm, hl, if_true]
  split <;> rfl

theorem poiComplete_error_err (now : Nat) (s : ComponentState) (id : Nat) :
    (poiComplete now s id PoiResp.transportError).error = some poiFetchFailedMsg := by
  simp only [poiComplete, setupAutoRefresh_error, updateMapMarkers_error]

theorem poiComplete_loading (now : Nat) (s : ComponentState) (id : Nat) (resp : PoiResp) :
    (poiComplete now s id resp).loading = false := by
  simp only [poiComplete, setupAutoRefresh_loading]

/-- State of the C4 trace: one restaurant is displayed (its markers are
rendered) and one POI request (issue index 0) is in flight. -/
def c4Before : ComponentState :=
  { baseState with location := some parisLoc, restaurants := [rA],
                   markers := renderMarkers parisLoc [rA],
                   pending := [PendingReq.poi 0 48 2], nextReqId := 1 }

/-- The in-flight POI fetch fails with a transport error. -/
def c4After : ComponentState := step 5 c4Before (Event.poiDone 0 PoiResp.transportError)

/-- C4 counterexample: after a POI transport error the previously stored
restaurants are not left unchanged — `catchError` recovers with
`elements: []`, the subscriber stores it, and the markers are re-rendered
from the empty set (only the centre marker survives). -/
theorem C4_counterexample :
    c4Before.restaurants = [rA] ∧
    c4After.restaurants = [] ∧
    c4Before.markers ≠ c4After.markers ∧
    c4After.markers = renderMarkers parisLoc [] := by decide

/-- C4 (amended): after a POI transport error the state has
`lastError = POIFetchFailed` and `isLoading = false` as claimed, but the
previously stored `currentPOIs` are replaced by the empty set and the
markers are re-rendered from it, leaving only the centre marker (when
the map and a location are present). -/
theorem C4_amended_pois_cleared (now : Nat) (s : ComponentState) (id : Nat) (loc : Location)
    (hm : s.mapPresent = true) (hl : s.location = some loc) :
    (step now s (Event.poiDone id PoiResp.transportError)).error = some poiFetchFailedMsg ∧
    (step now s (Event.poiDone id PoiResp.transportError)).loading = false ∧
    (step now s (Event.poiDone id PoiResp.transportError)).restaurants = [] ∧
    (step now s (Event.poiDone id PoiResp.transportError)).markers = renderMarkers loc [] := by
  refine ⟨poiComplete_error_err now s id, poiComplete_loading now s id _,
          poiComplete_restaurants_err now s id, ?_⟩
  show (poiComplete now s id PoiResp.transportError).markers = renderMarkers loc []
  simp only [poiComplete, setupAutoRefresh_markers]
  rw [updateMapMarkers_markers_some _ loc (by simpa using hm) (by simpa using hl)]

/-- C4 witness: the amended statement at the concrete C4 trace state. -/
theorem C4_amended_witness :
    c4Before.mapPresent = true ∧ c4Before.location = some parisLoc ∧
    ((step 5 c4Before (Event.poiDone 0 PoiResp.transportError)).error = some poiFetchFailedMsg ∧
     (step 5 c4Before (Event.poiDone 0 PoiResp.transportError)).loading = false ∧
     (step 5 c4Before (Event.poiDone 0 PoiResp.transportError)).restaurants = [] ∧
     (step 5 c4Before (Event.poiDone 0 PoiResp.transportError)).markers = renderMarkers parisLoc []) :=
  ⟨rfl, rfl, C4_amended_pois_cleared 5 c4Before 0 parisLoc rfl rfl⟩

/-- The C5 input-event stream: a burst committing "a", then a second
burst (two keystrokes 100 ms apart) whose final value is again "a". All
three DOM event objects are distinct (fresh `eventId`s). -/
def c5Events : List InputEvent := [⟨0, 0, "a"⟩, ⟨1, 1000, "ab"⟩, ⟨2, 1100, "a"⟩]

/-- C5: the pipeline's `distinctUntilChanged()` compares the raw DOM
`Event` objects, which are pairwise distinct, so it never drops anything:
the second burst re-commits the duplicate query "a" (two commits),
whereas the claimed law demands the duplicate burst commit zero queries
(one commit in total, as `specDebounceCommits` shows). -/
theorem C5_duplicate_commit_not_suppressed :
    committedQueries c5Events = ["a", "a"] ∧
    specDebounceCommits c5Events = ["a"] := by decide

theorem updateMapMarkers_cluster_big (s : ComponentState) (loc : Location)
    (hm : s.mapPresent = true) (hl : s.location = some loc)
    (hn : 20 < s.restaurants.length) :
    (updateMapMarkers s).clusterSource = some (s.restaurants.map restaurantFeature) := by
  simp only [updateMapMarkers, setupClustering, hm, hl, if_true]
  split
  · rfl
  · rename_i hcontra
    exact absurd hn hcontra

theorem updateMapMarkers_cluster_small (s : ComponentState) (loc : Location)
    (hm : s.mapPresent = true) (hl : s.location = some loc)
    (hn : s.restaurants.length ≤ 20) :
    (updateMapMarkers s).clusterSource = s.clusterSource := by
  simp only [updateMapMarkers, setupClustering, hm, hl, if_true]
  split
  · rename_i hcontra
    exact absurd hcontra (Nat.not_lt.mpr hn)
  · rfl

/-- 21 restaurants, taking the count over the clustering threshold. -/
def rs21 : List Restaurant :=
  (List.range 21).map (fun i =>
    { id := Int.ofNat i, lat := 0, lon := 0,
      tags := { name := none, amenity := "restaurant" } })

/-- State of the C6 trace: a location and 21 fetched restaurants. -/
def c6Before : ComponentState :=
  { baseState with restaurants := rs21, location := some parisLoc }

/-- The renderer runs on the 21 restaurants. -/
def c6After : ComponentState := updateMapMarkers c6Before

/-- C6 counterexample: with 21 restaurants (> 20) the renderer still
creates one individual marker per POI — 22 markers in total — and sets
up clustering in addition, not instead. -/
theorem C6_counterexample :
    20 < c6Before.restaurants.length ∧
    c6After.markers = renderMarkers parisLoc rs21 ∧
    c6After.markers.length = 22 ∧
    c6After.clusterSource = some (rs21.map restaurantFeature) := by decide

/-- C6 (amended): the renderer always creates one marker per POI plus
the centre marker (count + 1 markers); when the count exceeds 20 it
additionally installs the clustering source (it does not replace the
individual markers), and when the count is at most 20 the clustering
source is left untouched. -/
theorem C6_amended_clustering_in_addition (s : ComponentState) (loc : Location)
    (hm : s.mapPresent = true) (hl : s.location = some loc) :
    (updateMapMarkers s).markers = renderMarkers loc s.restaurants ∧
    (updateMapMarkers s).markers.length = s.restaurants.length + 1 ∧
    (20 < s.restaurants.length →
      (updateMapMarkers s).clusterSource = some (s.restaurants.map restaurantFeature)) ∧
    (s.restaurants.length ≤ 20 →
      (updateMapMarkers s).clusterSource = s.clusterSource) := by
  refine ⟨updateMapMarkers_markers_some s loc hm hl, ?_,
          fun hn => updateMapMarkers_cluster_big s loc hm hl hn,
          fun hn => updateMapMarkers_cluster_small s loc hm hl hn⟩
  rw [updateMapMarkers_markers_some s loc hm hl]
  simp [renderMarkers]

/-- C6 witness: the amended statement at the 21-restaurant trace state. -/
theorem C6_amended_witness :
    c6Before.mapPresent = true ∧ c6Before.location = some parisLoc ∧
    ((updateMapMarkers c6Before).markers = renderMarkers parisLoc c6Before.restaurants ∧
     (updateMapMarkers c6Before).markers.length = c6Before.restaurants.length + 1 ∧
     (20 < c6Before.restaurants.length →
       (updateMapMarkers c6Before).clusterSource = some (c6Before.restaurants.map restaurantFeature)) ∧
     (c6Before.restaurants.length ≤ 20 →
       (updateMapMarkers c6Before).clusterSource = c6Before.clusterSource)) :=
  ⟨rfl, rfl, C6_amended_clustering_in_addition c6Before parisLoc rfl rfl⟩

/-- Timer discipline: at most one live refresh-timer subscription, and
any live one is exactly the one held in `refreshSubscription`. -/
def timerInv (s : ComponentState) : Prop :=
  s.activeTimers.length ≤ 1 ∧ ∀ t ∈ s.activeTimers, s.refreshSub = some t

instance (s : ComponentState) : Decidable (timerInv s) := by
  unfold timerInv
  infer_instance

theorem timerInv_of_fields {a b : ComponentState} (h1 : a.activeTimers = b.activeTimers)
    (h2 : a.refreshSub = b.refreshSub) (h : timerInv b) : timerInv a := by
  unfold timerInv at h ⊢
  rw [h1, h2]
  exact h

theorem setupAutoRefresh_reset (now : Nat) (s : ComponentState) (h : timerInv s) :
    (setupAutoRefresh now s).activeTimers = [{ tid := s.nextTimerId, armedAt := now }] := by
  obtain ⟨hlen, hall⟩ := h
  unfold setupAutoRefresh
  cases hsub : s.refreshSub with
  | none =>
      have hempty : s.activeTimers = [] := by
        cases hat : s.activeTimers with
        | nil => rfl
        | cons a l =>
            have hmem := hall a (by rw [hat]; exact List.mem_cons_self a l)
            rw [hsub] at hmem
            cases hmem
      simp [hempty]
  | some t0 =>
      have herase : s.activeTimers.erase t0 = [] := by
        cases hat : s.activeTimers with
        | nil => rfl
        | cons a l =>
            have hmem := hall a (by rw [hat]; exact List.mem_cons_self a l)
            rw [hsub] at hmem
            have ha : a = t0 := by
              injection hmem with hx
              exact hx.symm
            cases l with
            | nil =>
                rw [ha]
                exact List.erase_cons_head t0 []
            | cons b l2 =>
                exfalso
                rw [hat] at hlen
                simp at hlen
      simp [herase]

theorem setupAutoRefresh_timerInv (now : Nat) (s : ComponentState) (h : timerInv s) :
    timerInv (setupAutoRefresh now s) := by
  have h1 := setupAutoRefresh_reset now s h
  have h2 := setupAutoRefresh_refreshSub now s
  unfold timerInv
  rw [h1, h2]
  refine ⟨by simp, ?_⟩
  intro t ht
  simp only [List.mem_singleton] at ht
  rw [ht]

theorem poiComplete_eq_setup (now : Nat) (s : ComponentState) (id : Nat) (resp : PoiResp) :
    ∃ s3 : ComponentState, poiComplete now s id resp = setupAutoRefresh now s3 ∧
      s3.activeTimers = s.activeTimers ∧ s3.refreshSub = s.refreshSub ∧
      s3.nextTimerId = s.nextTimerId := by
  refine ⟨_, rfl, ?_, ?_, ?_⟩
  · exact updateMapMarkers_activeTimers _
  · exact updateMapMarkers_refreshSub _
  · exact updateMapMarkers_nextTimerId _

theorem poiComplete_timerInv (now : Nat) (s : ComponentState) (id : Nat) (resp : PoiResp)
    (h : timerInv s) : timerInv (poiComplete now s id resp) := by
  obtain ⟨s3, heq, ha, hr, _⟩ := poiComplete_eq_setup now s id resp
  rw [heq]
  exact setupAutoRefresh_timerInv now s3 (timerInv_of_fields ha hr h)

theorem poiComplete_refreshSub (now : Nat) (s : ComponentState) (id : Nat) (resp : PoiResp) :
    (poiComplete now s id resp).refreshSub = some { tid := s.nextTimerId, armedAt := now } := by
  obtain ⟨s3, heq, _, _, hn⟩ := poiComplete_eq_setup now s id resp
  rw [heq, setupAutoRefresh_refreshSub, hn]

theorem onMoveend_activeTimers (s : ComponentState) (lat lon : Rat) :
    (onMoveend s lat lon).activeTimers = s.activeTimers := by
  unfold onMoveend
  split
  · exact fetchRestaurants_activeTimers s lat lon
  · rfl

theorem onMoveend_refreshSub (s : ComponentState) (lat lon : Rat) :
    (onMoveend s lat lon).refreshSub = s.refreshSub := by
  unfold onMoveend
  split
  · exact fetchRestaurants_refreshSub s lat lon
  · rfl

theorem refreshTick_activeTimers (s : ComponentState) :
    (refreshTick s).activeTimers = s.activeTimers := by
  unfold refreshTick
  rcases hl : s.location with _ | loc
  · rfl
  · split
    · split
      · rfl
      · exact fetchRestaurants_activeTimers s _ _
    · rfl

theorem refreshTick_refreshSub (s : ComponentState) :
    (refreshTick s).refreshSub = s.refreshSub := by
  unfold refreshTick
  rcases hl : s.location with _ | loc
  · rfl
  · split
    · split
      · rfl
      · exact fetchRestaurants_refreshSub s _ _
    · rfl

theorem geocodeComplete_activeTimers (s : ComponentState) (id : Nat) (resp : GeocodeResp) :
    (geocodeComplete s id resp).activeTimers = s.activeTimers := by
  cases resp with
  | ok rows =>
      cases rows with
      | nil => rfl
      | cons row rest =>
          simp [geocodeComplete, fetchRestaurants_activeTimers, updateMapCenter_activeTimers]
  | transportError => rfl

theorem geocodeComplete_refreshSub (s : ComponentState) (id : Nat) (resp : GeocodeResp) :
    (geocodeComplete s id resp).refreshSub = s.refreshSub := by
  cases resp with
  | ok rows =>
      cases rows with
      | nil => rfl
      | cons row rest =>
          simp [geocodeComplete, fetchRestaurants_refreshSub, updateMapCenter_refreshSub]
  | transportError => rfl

/-- C7: timer discipline — every event preserves "at most one live
refresh timer, the one held by `refreshSubscription`"; re-arming from a
state satisfying it leaves exactly the fresh timer live (the previous
one is unsubscribed); and every POI completion re-arms a timer anchored
at the completion instant, whose first tick is due 30 s after that
completion, not on a wall-clock grid. -/
theorem C7_single_timer (now : Nat) (s : ComponentState) (e : Event) (id : Nat)
    (resp : PoiResp) (h : timerInv s) :
    timerInv (step now s e) ∧
    (setupAutoRefresh now s).activeTimers = [{ tid := s.nextTimerId, armedAt := now }] ∧
    (step now s (Event.poiDone id resp)).refreshSub =
      some { tid := s.nextTimerId, armedAt := now } ∧
    RefreshTimer.firstDueAt { tid := s.nextTimerId, armedAt := now } =
      now + refreshIntervalMs := by
  refine ⟨?_, setupAutoRefresh_reset now s h, poiComplete_refreshSub now s id resp, rfl⟩
  cases e with
  | submit =>
      exact timerInv_of_fields (searchLocation_activeTimers s _) (searchLocation_refreshSub s _) h
  | debouncedInput =>
      exact timerInv_of_fields (searchLocation_activeTimers s _) (searchLocation_refreshSub s _) h
  | moveend lat lon =>
      exact timerInv_of_fields (onMoveend_activeTimers s lat lon) (onMoveend_refreshSub s lat lon) h
  | tick =>
      exact timerInv_of_fields (refreshTick_activeTimers s) (refreshTick_refreshSub s) h
  | geocodeDone id2 r =>
      exact timerInv_of_fields (geocodeComplete_activeTimers s id2 r) (geocodeComplete_refreshSub s id2 r) h
  | poiDone id2 r =>
      exact poiComplete_timerInv now s id2 r h
  | goOnline =>
      show timerInv (if s.destroyed = true then s else _)
      split
      · exact h
      · exact timerInv_of_fields rfl rfl h
  | goOffline =>
      show timerInv (if s.destroyed = true then s else _)
      split
      · exact h
      · exact timerInv_of_fields rfl rfl h
  | destroy =>
      refine ⟨?_, ?_⟩
      · show (ngOnDestroy s).activeTimers.length ≤ 1
        simp [ngOnDestroy]
      · intro t ht
        simp [step, ngOnDestroy] at ht

/-- C7 witness: the timer discipline at the concrete base state. -/
theorem C7_single_timer_witness :
    timerInv baseState ∧
    (timerInv (step 7 baseState Event.tick) ∧
     (setupAutoRefresh 7 baseState).activeTimers = [{ tid := 0, armedAt := 7 }] ∧
     (step 7 baseState (Event.poiDone 0 PoiResp.transportError)).refreshSub =
       some { tid := 0, armedAt := 7 } ∧
     RefreshTimer.firstDueAt { tid := 0, armedAt := 7 } = 7 + refreshIntervalMs) :=
  ⟨by decide, C7_single_timer 7 baseState Event.tick 0 PoiResp.transportError (by decide)⟩

/-- State of the C8 trace: a location is held and one geocode request
(issue index 0) is in flight. -/
def c8Base : ComponentState :=
  { baseState with location := some parisLoc,
                   pending := [PendingReq.geocode 0 "Nowhere"], nextReqId := 1 }

/-- A refresh timer is armed at instant 100. -/
def c8Armed : ComponentState := setupAutoRefresh 100 c8Base

/-- The in-flight geocode returns no rows, clearing `location`. -/
def c8After : ComponentState := step 200 c8Armed (Event.geocodeDone 0 (GeocodeResp.ok []))

/-- C8 counterexample: after `currentLocation` becomes absent (empty
geocode result) the refresh timer is NOT cancelled — the very same timer
subscription is still held and still live; only its tick body is a
no-op. -/
theorem C8_counterexample :
    c8Armed.refreshSub = some { tid := 0, armedAt := 100 } ∧
    c8After.location = none ∧
    c8After.refreshSub = some { tid := 0, armedAt := 100 } ∧
    c8After.activeTimers = [{ tid := 0, armedAt := 100 }] := by decide

/-- C8 (amended): teardown (`ngOnDestroy`) cancels the refresh timer
entirely (no live timer remains and the subscription handle is
dropped); when `currentLocation` becomes absent, however, the timer
stays armed and each tick is merely a no-op (the whole state is
unchanged, so no fetch is issued) while the location is absent. -/
theorem C8_amended_noop_not_cancelled (now : Nat) (s : ComponentState)
    (h : s.location = none) :
    (step now s Event.destroy).activeTimers = [] ∧
    (step now s Event.destroy).refreshSub = none ∧
    step now s Event.tick = s := by
  refine ⟨rfl, rfl, ?_⟩
  show refreshTick s = s
  unfold refreshTick
  rw [h]

/-- A state with a timer armed but no current location. -/
def c8NoLoc : ComponentState := setupAutoRefresh 100 baseState

/-- C8 witness: the amended statement at a concrete armed, location-less
state. -/
theorem C8_amended_witness :
    c8NoLoc.location = none ∧
    ((step 0 c8NoLoc Event.destroy).activeTimers = [] ∧
     (step 0 c8NoLoc Event.destroy).refreshSub = none ∧
     step 0 c8NoLoc Event.tick = c8NoLoc) :=
  ⟨rfl, C8_amended_noop_not_cancelled 0 c8NoLoc rfl⟩

theorem updateMapMarkers_none (s : ComponentState) (hl : s.location = none) :
    updateMapMarkers s = s := by
  unfold updateMapMarkers
  split
  · rw [hl]
  · rfl

theorem poiComplete_markers_none (now : Nat) (s : ComponentState) (id : Nat) (resp : PoiResp)
    (hl : s.location = none) : (poiComplete now s id resp).markers = s.markers := by
  simp [poiComplete, setupAutoRefresh_markers, updateMapMarkers_none, hl]

theorem poiComplete_markers_some (now : Nat) (s : ComponentState) (id : Nat)
    (elements : List Restaurant) (loc : Location) (hm : s.mapPresent = true)
    (hl : s.location = some loc) :
    (poiComplete now s id (PoiResp.ok elements)).markers = renderMarkers loc elements := by
  simp only [poiComplete, setupAutoRefresh_markers]
  exact updateMapMarkers_markers_some _ loc hm hl

/-- First state of the C9 pair: no current location (a previous empty
geocode cleared it), stale markers still rendered from the previously
displayed restaurant list. -/
def c9s1 : ComponentState :=
  { baseState with location := none, restaurants := [rA],
                   markers := renderMarkers parisLoc [rA] }

/-- Second state of the C9 pair: identical location and POIs, but no
markers on the map. -/
def c9s2 : ComponentState := { c9s1 with markers := [] }

/-- Both states apply the same POI completion (payload `[rB]`). -/
def c9a : ComponentState := step 0 c9s1 (Event.poiDone 0 (PoiResp.ok [rB]))

/-- The same completion applied to the second state. -/
def c9b : ComponentState := step 0 c9s2 (Event.poiDone 0 (PoiResp.ok [rB]))

/-- C9 counterexample: two stable points agreeing on
(`currentLocation`, `currentPOIs`) — both `none` and `[rB]` — carry
different rendered markers: when `currentLocation` is absent,
`updateMapMarkers` returns early and the stale markers of the old POI
list survive, so the rendered markers are not a function of the pair
and are not recomputed from the replaced `currentPOIs`. -/
theorem C9_counterexample :
    c9a.location = c9b.location ∧
    c9a.restaurants = c9b.restaurants ∧
    c9a.restaurants = [rB] ∧
    c9a.markers = renderMarkers parisLoc [rA] ∧
    c9b.markers = [] ∧
    c9a.markers ≠ c9b.markers := by decide

/-- C9 (amended): after an applied POI completion the rendered markers
are the pure render of (`currentLocation`, `currentPOIs`) whenever the
map exists and a location is present; when `currentLocation` is absent
the previously rendered markers are left untouched, so they may show a
superseded state. -/
theorem C9_amended_markers_pure_only_with_location (now : Nat) (s : ComponentState)
    (id : Nat) (elements : List Restaurant) (loc : Location)
    (hm : s.mapPresent = true) :
    (s.location = some loc →
      (step now s (Event.poiDone id (PoiResp.ok elements))).markers =
        renderMarkers loc elements) ∧
    (s.location = none →
      (step now s (Event.poiDone id (PoiResp.ok elements))).markers = s.markers) := by
  constructor
  · intro hl
    exact poiComplete_markers_some now s id elements loc hm hl
  · intro hl
    exact poiComplete_markers_none now s id _ hl

/-- C9 witness: the amended statement at the concrete location-less
state of the counterexample pair. -/
theorem C9_amended_witness :
    c9s1.mapPresent = true ∧
    ((c9s1.location = some parisLoc →
       (step 0 c9s1 (Event.poiDone 0 (PoiResp.ok [rB]))).markers =
         renderMarkers parisLoc [rB]) ∧
     (c9s1.location = none →
       (step 0 c9s1 (Event.poiDone 0 (PoiResp.ok [rB]))).markers = c9s1.markers)) :=
  ⟨rfl, C9_amended_markers_pure_only_with_location 0 c9s1 0 [rB] parisLoc rfl⟩

/-- C10: every POI completion re-arms the refresh timer — the handler
runs `setupAutoRefresh` unconditionally, for a successful payload and
for a transport error converted to the empty result alike; the fresh
timer is anchored at the completion instant. -/
theorem C10_rearm_after_every_completion (now : Nat) (s : ComponentState) (id : Nat)
    (resp : PoiResp) :
    (step now s (Event.poiDone id resp)).refreshSub =
      some { tid := s.nextTimerId, armedAt := now } ∧
    (step now s (Event.poiDone id PoiResp.transportError)).refreshSub =
      some { tid := s.nextTimerId, armedAt := now } :=
  ⟨poiComplete_refreshSub now s id resp,
   poiComplete_refreshSub now s id PoiResp.transportError⟩

end AdvancedMap
